import Mathlib

/-!
# Verification of the mcp-toolkit-server tool-dispatch core

A shallow embedding, in Lean 4, of the tool-dispatch and provider layer of
the `mcp-toolkit-server` TypeScript repository:

* `src/result.ts`            — the `Result` success/failure container;
* `src/tools/text-analysis.ts` — `summarize`, `analyzeSentiment`, `extractEntities`;
* `src/tools/web-search.ts`  — `webSearch` and `SearchSchema`;
* `src/tools/weather.ts`     — `getWeather` and `WeatherSchema`;
* `src/tools/sampling.ts`    — `smartSummarize`;
* `src/tools/elicitation.ts` — `configureAnalysis`;
* `src/providers/mock.ts`    — the three mock providers;
* `src/server.ts`            — `registerTools`' CallToolRequest handler (the dispatcher).

Modelling conventions:

* JavaScript numbers are modelled as exact rationals (`ℚ`); every numeric
  constant appearing in the code (`0.15`, `0.6`, `0.35`, …) is taken at its
  literal decimal value.
* A JavaScript value is modelled by `JsonValue`; an argument object by an
  association list `Args`; an absent property by an absent key.
* An `async` function whose promise may reject is modelled as
  `Except String _` (`.error` = rejected promise / thrown exception); a
  function that cannot throw keeps its plain return type.
* Zod's `Schema.parse` is modelled per schema as a function
  `Args → Except String _` performing exactly the declared checks in field
  order; a `ZodError`'s aggregated issue list is abbreviated to the first
  failing issue's message text.
* The JavaScript regular-expression engine (used only by
  `extractEntities`) and the connected MCP client (reached through
  `server.createMessage` / `server.elicitInput`) are external to the
  repository and are modelled as oracle parameters.
* `jsToLowerCase`/`jsTrim` stand for JavaScript `toLowerCase`/`trim`
  (character-wise, agreeing on the ASCII texts involved); `String.length`
  models `.length`.
-/

/-! ## src/result.ts — the Result container -/

inductive Result (α : Type) (ε : Type) where
  | Ok (value : α)
  | Err (error : ε)
deriving DecidableEq, Repr

/-! ## JavaScript value model and small utilities -/

inductive JsonValue where
  | null
  | bool (b : Bool)
  | num (q : ℚ)
  | str (s : String)
  | arr (elems : List JsonValue)
  | obj (fields : List (String × JsonValue))

/-- A JavaScript argument object (`Record<string, unknown>`). -/
def Args := List (String × JsonValue)

/-- Property access `args[k]`; `none` models `undefined`. -/
def jlookup (args : Args) (k : String) : Option JsonValue :=
  match args.find? (fun p => p.1 == k) with
  | some p => some p.2
  | none => none

/-- Property access on an arbitrary JavaScript value: on a non-object it
yields `undefined` (`none`), as in JavaScript for the property names used
here. -/
def jget (v : JsonValue) (k : String) : Option JsonValue :=
  match v with
  | .obj fields => jlookup fields k
  | _ => none

/-- The nullish-coalescing operator `x ?? d`: `null` and `undefined` fall
through to the default. -/
def nullish (x : Option JsonValue) (d : JsonValue) : JsonValue :=
  match x with
  | none => d
  | some .null => d
  | some v => v

/-- JavaScript `Boolean(v)` truthiness. -/
def jsTruthy (v : JsonValue) : Bool :=
  match v with
  | .null => false
  | .bool b => b
  | .num q => q != 0
  | .str s => s != ""
  | .arr _ => true
  | .obj _ => true

/-- JavaScript `Number(v)` coercion, abbreviated: `none` models `NaN`
(strings are parsed only when they are plain decimal integers; array and
object coercions are collapsed to `NaN`). -/
def jsToNumber (v : JsonValue) : Option ℚ :=
  match v with
  | .null => some 0
  | .bool b => some (if b then 1 else 0)
  | .num q => some q
  | .str s => if s.isNat then some (s.toNat!) else none
  | .arr _ => none
  | .obj _ => none

/-- JavaScript `Math.min` on two (non-NaN) numbers. -/
def jsMinQ (a b : ℚ) : ℚ := if a ≤ b then a else b

/-- `Math.min` on two natural-valued numbers. -/
def jsMinN (a b : ℕ) : ℕ := if a ≤ b then a else b

/-- JavaScript `s.toLowerCase()` (character-wise; agrees with it on the
ASCII texts involved). -/
def jsToLowerCase (s : String) : String :=
  String.mk (s.data.map Char.toLower)

/-- JavaScript `s.trim()`: strip leading and trailing whitespace. -/
def jsTrim (s : String) : String :=
  String.mk (((s.data.dropWhile Char.isWhitespace).reverse.dropWhile
    Char.isWhitespace).reverse)

/-- `pat` is a prefix of `s` (character lists). -/
def listHasPre : List Char → List Char → Bool
  | _, [] => true
  | [], _ :: _ => false
  | a :: as, b :: bs => a == b && listHasPre as bs

/-- `pat` occurs somewhere in `s` (character lists); JavaScript
`s.includes(pat)`. -/
def listHasSub : List Char → List Char → Bool
  | [], pat => pat.isEmpty
  | s@(_ :: rest), pat => listHasPre s pat || listHasSub rest pat

/-- JavaScript `s.includes(pat)`. -/
def strContains (s pat : String) : Bool :=
  listHasSub s.data pat.data

/-- Splitting on runs of whitespace, exactly as JavaScript
`s.split(/\s+/)`: maximal whitespace runs separate the pieces, and a
leading or trailing run contributes an empty piece. -/
def splitWsAux : Nat → List Char → List String
  | 0, _ => []
  | fuel + 1, cs =>
    let word := cs.takeWhile (fun c => !c.isWhitespace)
    match cs.dropWhile (fun c => !c.isWhitespace) with
    | [] => [String.mk word]
    | _ :: tail => String.mk word :: splitWsAux fuel (tail.dropWhile Char.isWhitespace)

/-- JavaScript `s.split(/\s+/)`. -/
def splitWs (s : String) : List String :=
  splitWsAux (s.data.length + 1) s.data

/-! ## src/tools/text-analysis.ts — analyzeSentiment -/

structure SentimentInput where
  text : String
deriving DecidableEq, Repr

structure SentimentResult where
  sentiment : String
  confidence : ℚ
  explanation : String
deriving DecidableEq, Repr

def positiveWords : List String :=
  ["good", "great", "excellent", "amazing", "wonderful", "love", "best",
   "happy", "fantastic", "brilliant", "outstanding", "perfect"]

def negativeWords : List String :=
  ["bad", "terrible", "awful", "worst", "hate", "horrible", "poor",
   "disappointing", "failure", "broken", "useless", "wrong"]

/-- Number of tokens of `words` containing some element of `lexicon` as a
substring (the counting loop of `analyzeSentiment`). -/
def countMatches (lexicon : List String) (words : List String) : Nat :=
  (words.filter (fun w => lexicon.any (fun pw => strContains w pw))).length

/-- `positiveCount` for an input text (lower-cased, whitespace-split, as in
the source). -/
def posCount (text : String) : Nat :=
  countMatches positiveWords (splitWs (jsToLowerCase text))

/-- `negativeCount` for an input text. -/
def negCount (text : String) : Nat :=
  countMatches negativeWords (splitWs (jsToLowerCase text))

/-- `analyzeSentiment` from src/tools/text-analysis.ts: a pure heuristic
classifier; always succeeds. -/
def analyzeSentiment (input : SentimentInput) : Result SentimentResult String :=
  let positiveCount := posCount input.text
  let negativeCount := negCount input.text
  let total := positiveCount + negativeCount
  let sce : String × ℚ × String :=
    if total = 0 then
      ("neutral", 0.6, "No strong sentiment indicators found in the text.")
    else if 0 < positiveCount ∧ 0 < negativeCount then
      ("mixed",
       0.5 + |(positiveCount : ℚ) - (negativeCount : ℚ)| / ((total : ℚ) * 2),
       "Found " ++ toString positiveCount ++ " positive and " ++
         toString negativeCount ++ " negative indicators.")
    else if negativeCount < positiveCount then
      ("positive",
       0.6 + jsMinQ 0.35 ((positiveCount : ℚ) * 0.1),
       "Strong positive sentiment with " ++ toString positiveCount ++
         " positive indicators.")
    else
      ("negative",
       0.6 + jsMinQ 0.35 ((negativeCount : ℚ) * 0.1),
       "Negative sentiment detected with " ++ toString negativeCount ++
         " negative indicators.")
  .Ok { sentiment := sce.1, confidence := jsMinQ sce.2.1 1.0, explanation := sce.2.2 }

/-! ## src/tools/text-analysis.ts — summarize and extractEntities -/

structure CompletionOptions where
  maxTokens : Option ℕ := none
  temperature : Option ℚ := none
  model : Option String := none

structure SummarizeInput where
  text : String
  maxLength : ℕ
deriving DecidableEq, Repr

/-- The instruction prompt `summarize` builds for the text provider. -/
def summarizePrompt (input : SummarizeInput) : String :=
  "Summarize the following text in " ++ toString input.maxLength ++
    " words or fewer:\n\n" ++ input.text

/-- `summarize` from src/tools/text-analysis.ts.  `complete` is the injected
text provider's `complete` method; its promise may reject, hence the
`Except` layer, which `summarize` propagates untouched. -/
def summarize (input : SummarizeInput)
    (complete : String → CompletionOptions → Except String (Result String String)) :
    Except String (Result String String) :=
  complete (summarizePrompt input) { maxTokens := some (input.maxLength * 2) }

structure EntityInput where
  text : String
  types : List String
deriving DecidableEq, Repr

structure Entity where
  text : String
  type : String
  confidence : ℚ
deriving DecidableEq, Repr

/-- The entity categories for which src/tools/text-analysis.ts declares a
regular-expression pattern. -/
def entityPatternKeys : List String :=
  ["person", "organization", "location", "date", "technology"]

/-- The case-insensitive per-category deduplication loop of
`extractEntities` over the raw match list. -/
def dedupMatches (ty : String) (ms : List String) : List Entity :=
  (ms.foldl
    (fun (acc : List String × List Entity) m =>
      if acc.1.contains (jsToLowerCase m) then acc
      else (jsToLowerCase m :: acc.1, acc.2 ++ [{ text := m, type := ty, confidence := 0.85 }]))
    ([], [])).2

/-- `extractEntities` from src/tools/text-analysis.ts.  The JavaScript
regular-expression engine is external; `regexMatches ty text` is an oracle
giving the ordered `matchAll` results of category `ty`'s pattern on `text`.
Categories without a pattern are skipped; surviving matches are tagged with
confidence 0.85.  Always succeeds. -/
def extractEntities (input : EntityInput)
    (regexMatches : String → String → List String) : Result (List Entity) String :=
  .Ok (input.types.foldl
    (fun acc ty =>
      if entityPatternKeys.contains ty then
        acc ++ dedupMatches ty (regexMatches ty input.text)
      else acc)
    [])

/-! ## src/tools/web-search.ts and src/tools/weather.ts — handlers -/

structure SearchResult where
  title : String
  url : String
  snippet : String
  score : ℚ
deriving DecidableEq, Repr

structure SearchInput where
  query : String
  maxResults : ℕ
deriving DecidableEq, Repr

/-- `webSearch` from src/tools/web-search.ts: delegates to the injected
search provider. -/
def webSearch (input : SearchInput)
    (search : String → ℕ → Except String (Result (List SearchResult) String)) :
    Except String (Result (List SearchResult) String) :=
  search input.query input.maxResults

inductive TempUnit where
  | celsius
  | fahrenheit
deriving DecidableEq, Repr

structure WeatherData where
  location : String
  temperature : ℚ
  unit : TempUnit
  condition : String
  humidity : ℚ
  wind_speed : ℚ
  forecast : String
deriving DecidableEq, Repr

structure WeatherInput where
  location : String
  unit : TempUnit
deriving DecidableEq, Repr

/-- `getWeather` from src/tools/weather.ts: delegates to the injected
weather provider, passing only the location (the validated `unit` field is
never forwarded). -/
def getWeather (input : WeatherInput)
    (providerGetWeather : String → Except String (Result WeatherData String)) :
    Except String (Result WeatherData String) :=
  providerGetWeather input.location

/-! ## src/tools/sampling.ts — smartSummarize -/

structure SmartSummarizeInput where
  text : String
  maxLength : ℕ
deriving DecidableEq, Repr

/-- The `sampling/createMessage` request `smartSummarize` sends to the
connected client. -/
structure SamplingRequest where
  prompt : String
  maxTokens : ℕ
  systemPrompt : String
deriving DecidableEq, Repr

def smartSummarizeRequest (input : SmartSummarizeInput) : SamplingRequest :=
  { prompt := "Please summarize the following text in approximately " ++
      toString input.maxLength ++
      " words or fewer. Be concise and capture the key points:\n\n" ++ input.text,
    maxTokens := input.maxLength * 4,
    systemPrompt := "You are a helpful assistant that creates concise, accurate summaries." }

/-- The `content` of a sampling response from the client. -/
structure SamplingContent where
  type : String
  text : String
deriving DecidableEq, Repr

/-- Outcome of the outward `server.createMessage` call: either the promise
rejects (`throws`, e.g. the client lacks the sampling capability) or a
response arrives. -/
inductive SamplingOutcome where
  | throws (err : String)
  | returns (content : SamplingContent)
deriving DecidableEq, Repr

/-- `smartSummarize` from src/tools/sampling.ts.  The connected client is
modelled by the oracle `client`, mapping the outward request to its
outcome; `String(err)` is modelled as the fault string itself. -/
def smartSummarize (input : SmartSummarizeInput)
    (client : SamplingRequest → SamplingOutcome) : Result String String :=
  match client (smartSummarizeRequest input) with
  | .throws err => .Err ("Sampling request failed: " ++ err)
  | .returns response =>
    if response.type = "text" then .Ok response.text
    else .Err "Client returned non-text sampling response"

/-! ## src/tools/elicitation.ts — configureAnalysis -/

structure ConfigureAnalysisInput where
  text : String
deriving DecidableEq, Repr

/-- `AnalysisConfig` from src/tools/elicitation.ts.  The TypeScript
interface declares `depth` as the enum `"quick" | "standard" | "deep"`,
but the handler fills it with `raw["depth"] as …` — an unchecked cast —
so the field is modelled as the raw JavaScript value.  `maxSummaryWords`
is filled via `Number(…)`; `none` models `NaN`. -/
structure AnalysisConfig where
  depth : JsonValue
  includeSentiment : Bool
  includeEntities : Bool
  maxSummaryWords : Option ℚ

structure ConfigureAnalysisResult where
  action : String
  config : Option AnalysisConfig
  message : String

/-- The `elicitation/create` request `configureAnalysis` sends: a message
embedding the input text's character length, plus the fixed
`ANALYSIS_CONFIG_SCHEMA` form descriptor (a constant; carried here only by
name since no code inspects it after construction). -/
structure ElicitRequest where
  message : String
  requestedSchema : String
deriving DecidableEq, Repr

def configureAnalysisRequest (input : ConfigureAnalysisInput) : ElicitRequest :=
  { message := "Configure analysis options for the provided text (" ++
      toString input.text.length ++ " characters):",
    requestedSchema := "ANALYSIS_CONFIG_SCHEMA" }

/-- Outcome of the outward `server.elicitInput` call: the promise rejects
(`throws`, e.g. the client lacks the elicitation capability) or a response
`{ action, content? }` arrives; `content = none` models an absent
(`undefined`) payload. -/
inductive ElicitOutcome where
  | throws (err : String)
  | returns (action : String) (content : Option JsonValue)

/-- JavaScript template-literal rendering `${v}` of a raw value,
abbreviated (only the cases reachable from the message construction
matter textually). -/
def jvalText (v : JsonValue) : String :=
  match v with
  | .null => "null"
  | .bool b => toString b
  | .num q => toString q.num ++ (if q.den = 1 then "" else "/" ++ toString q.den)
  | .str s => s
  | .arr _ => "[array]"
  | .obj _ => "[object Object]"

/-- Template-literal rendering of a JavaScript number (`none` = NaN). -/
def jnumText (q : Option ℚ) : String :=
  match q with
  | none => "NaN"
  | some q => toString q.num ++ (if q.den = 1 then "" else "/" ++ toString q.den)

/-- `elicitResult.content != null` — loose inequality, excluding both
`undefined` and `null`. -/
def contentNonNull (content : Option JsonValue) : Bool :=
  match content with
  | none => false
  | some .null => false
  | some _ => true

/-- `configureAnalysis` from src/tools/elicitation.ts.  The connected
client is modelled by the oracle `client`.  Every branch returns `Ok`. -/
def configureAnalysis (input : ConfigureAnalysisInput)
    (client : ElicitRequest → ElicitOutcome) : Result ConfigureAnalysisResult String :=
  match client (configureAnalysisRequest input) with
  | .throws _err =>
    -- If elicitation is not supported by the client, use defaults
    .Ok { action := "accept",
          config := some { depth := .str "standard",
                           includeSentiment := true,
                           includeEntities := true,
                           maxSummaryWords := some 100 },
          message := "Using default configuration (elicitation not supported by client)." }
  | .returns action content =>
    if action = "accept" ∧ contentNonNull content then
      let raw := content.getD .null
      let depth := nullish (jget raw "depth") (.str "standard")
      let includeSentiment := jsTruthy (nullish (jget raw "includeSentiment") (.bool true))
      let includeEntities := jsTruthy (nullish (jget raw "includeEntities") (.bool true))
      let maxSummaryWords := jsToNumber (nullish (jget raw "maxSummaryWords") (.num 100))
      .Ok { action := "accept",
            config := some { depth := depth,
                             includeSentiment := includeSentiment,
                             includeEntities := includeEntities,
                             maxSummaryWords := maxSummaryWords },
            message := "Analysis configured: depth=" ++ jvalText depth ++
              ", sentiment=" ++ toString includeSentiment ++
              ", entities=" ++ toString includeEntities ++
              ", maxWords=" ++ jnumText maxSummaryWords }
    else if action = "decline" then
      .Ok { action := "decline",
            config := none,
            message := "User declined to configure analysis. Using default settings would be required to proceed." }
    else
      -- action === "cancel"
      .Ok { action := "cancel",
            config := none,
            message := "User cancelled the analysis configuration dialog." }

/-! ## src/providers/mock.ts — the mock providers -/

/-- `MockTextProvider.complete`: deterministic template selection by prompt
length; never fails and never throws. -/
def MockTextProvider.complete (prompt : String) (_options : CompletionOptions) :
    Result String String :=
  let words := splitWs (jsToLowerCase prompt)
  let topics := String.intercalate ", " (words.take 5)
  let templates : List String :=
    ["Based on the analysis of " ++ topics ++ ", the key findings suggest a nuanced perspective. The evidence points to several interconnected factors that influence the outcome.",
     "Regarding " ++ topics ++ ": the current understanding indicates multiple contributing factors. Research suggests that a comprehensive approach yields the best results.",
     "The topic of " ++ topics ++ " involves several important considerations. A balanced assessment reveals both strengths and areas for further investigation."]
  let index := prompt.length % templates.length
  .Ok (templates.getD index "")

/-- The fixed pool of placeholder domains of `MockWebSearchProvider`. -/
def mockDomains : List String :=
  ["docs.example.com", "blog.techsite.com", "research.papers.io",
   "tutorial.dev", "wiki.knowledge.org"]

/-- `MockWebSearchProvider.search`: builds `min maxResults mockDomains.length`
synthetic results with `score i = 1.0 - i * 0.15`; never fails. -/
def MockWebSearchProvider.search (query : String) (maxResults : ℕ) :
    Result (List SearchResult) String :=
  let words := splitWs (jsToLowerCase query)
  .Ok ((List.range (jsMinN maxResults mockDomains.length)).map (fun i =>
    { title := String.intercalate " " (words.take 3) ++ " - Result " ++ toString (i + 1),
      url := "https://" ++ mockDomains.getD i "" ++ "/" ++ String.intercalate "-" words,
      snippet := "Comprehensive guide about " ++ query ++
        ". This resource covers the fundamentals and advanced topics related to " ++
        String.intercalate " " (words.take 2) ++ ".",
      score := 1 - (i : ℚ) * 0.15 }))

/-- The fixed canned table of `MockWeatherProvider`, keyed by lower-cased
trimmed location name. -/
def mockWeatherData : List (String × WeatherData) :=
  [("san francisco",
    { location := "San Francisco, CA", temperature := 62, unit := .fahrenheit,
      condition := "Partly Cloudy", humidity := 72, wind_speed := 12,
      forecast := "Mild with coastal fog clearing by afternoon" }),
   ("new york",
    { location := "New York, NY", temperature := 45, unit := .fahrenheit,
      condition := "Clear", humidity := 55, wind_speed := 8,
      forecast := "Clear skies with seasonal temperatures" }),
   ("london",
    { location := "London, UK", temperature := 8, unit := .celsius,
      condition := "Overcast", humidity := 85, wind_speed := 15,
      forecast := "Grey skies with chance of light rain" })]

/-- `MockWeatherProvider.getWeather`: canned data for known keys, synthetic
plausible data echoing the requested location otherwise; never fails. -/
def MockWeatherProvider.getWeather (location : String) : Result WeatherData String :=
  let key := jsTrim (jsToLowerCase location)
  match mockWeatherData.lookup key with
  | some data => .Ok data
  | none =>
    -- Generate plausible data for unknown locations
    .Ok { location := location, temperature := 70, unit := .fahrenheit,
          condition := "Clear", humidity := 50, wind_speed := 10,
          forecast := "Typical conditions for " ++ location }

/-! ## Zod input schemas

Each `XSchema.parse` mirrors the corresponding `z.object` declaration:
required fields, type checks, constraints (`min`, `max`, `int`,
`positive`, enum membership) and defaults, in field order.  A failure
models the thrown `ZodError` (abbreviated to one issue message). -/

/-- `z.string().min(1)` on field `k` of `args`. -/
def parseNonEmptyString (args : Args) (k : String) : Except String String :=
  match jlookup args k with
  | none => .error ("Required: " ++ k)
  | some (.str s) =>
    if 1 ≤ s.length then .ok s
    else .error "String must contain at least 1 character(s)"
  | some _ => .error ("Expected string: " ++ k)

/-- `z.number().int()` with an extra check `extra`, `.optional().default(d)`,
on field `k`. -/
def parseOptionalInt (args : Args) (k : String) (d : ℕ)
    (extra : ℤ → Option String) : Except String ℕ :=
  match jlookup args k with
  | none => .ok d
  | some (.num q) =>
    if q.den = 1 then
      match extra q.num with
      | some msg => .error msg
      | none => .ok q.num.toNat
    else .error "Expected integer, received float"
  | some _ => .error ("Expected number: " ++ k)

/-- `.positive()` — the check used by `maxLength` fields. -/
def positiveCheck (n : ℤ) : Option String :=
  if 0 < n then none else some "Number must be greater than 0"

/-- `.min(1).max(20)` — the check used by `maxResults`. -/
def boundedCheck (n : ℤ) : Option String :=
  if n < 1 then some "Number must be greater than or equal to 1"
  else if 20 < n then some "Number must be less than or equal to 20"
  else none

def SummarizeSchema.parse (args : Args) : Except String SummarizeInput := do
  let text ← parseNonEmptyString args "text"
  let maxLength ← parseOptionalInt args "maxLength" 100 positiveCheck
  .ok { text := text, maxLength := maxLength }

def SentimentSchema.parse (args : Args) : Except String SentimentInput := do
  let text ← parseNonEmptyString args "text"
  .ok { text := text }

def entityTypeEnum : List String :=
  ["person", "organization", "location", "date", "technology"]

/-- `z.array(z.enum([...])).optional().default([...])` for `types`. -/
def parseEntityTypes (args : Args) : Except String (List String) :=
  match jlookup args "types" with
  | none => .ok ["person", "organization", "location"]
  | some (.arr elems) =>
    elems.foldr
      (fun e acc =>
        match e with
        | .str s =>
          if entityTypeEnum.contains s then do
            let rest ← acc
            .ok (s :: rest)
          else .error "Invalid enum value"
        | _ => .error "Expected string: types element")
      (.ok [])
  | some _ => .error "Expected array: types"

def EntitySchema.parse (args : Args) : Except String EntityInput := do
  let text ← parseNonEmptyString args "text"
  let types ← parseEntityTypes args
  .ok { text := text, types := types }

def SearchSchema.parse (args : Args) : Except String SearchInput := do
  let query ← parseNonEmptyString args "query"
  let maxResults ← parseOptionalInt args "maxResults" 5 boundedCheck
  .ok { query := query, maxResults := maxResults }

/-- `z.enum(["celsius", "fahrenheit"]).optional().default("fahrenheit")`. -/
def parseUnit (args : Args) : Except String TempUnit :=
  match jlookup args "unit" with
  | none => .ok .fahrenheit
  | some (.str "celsius") => .ok .celsius
  | some (.str "fahrenheit") => .ok .fahrenheit
  | some (.str _) => .error "Invalid enum value"
  | some _ => .error "Expected string: unit"

def WeatherSchema.parse (args : Args) : Except String WeatherInput := do
  let location ← parseNonEmptyString args "location"
  let unit ← parseUnit args
  .ok { location := location, unit := unit }

def SmartSummarizeSchema.parse (args : Args) : Except String SmartSummarizeInput := do
  let text ← parseNonEmptyString args "text"
  let maxLength ← parseOptionalInt args "maxLength" 150 positiveCheck
  .ok { text := text, maxLength := maxLength }

def ConfigureAnalysisSchema.parse (args : Args) : Except String ConfigureAnalysisInput := do
  let text ← parseNonEmptyString args "text"
  .ok { text := text }

/-! ## JSON serialization of success payloads

The dispatcher renders structured success values with
`JSON.stringify(value, null, 2)`; the serializer is a JavaScript builtin,
modelled compactly (the pretty-printing whitespace and string escaping are
not reproduced; no theorem depends on these strings). -/

def jsonStringifyList (f : α → String) (xs : List α) : String :=
  "[" ++ String.intercalate "," (xs.map f) ++ "]"

def jsonStr (s : String) : String := "\"" ++ s ++ "\""

def jsonNum (q : ℚ) : String :=
  toString q.num ++ (if q.den = 1 then "" else "/" ++ toString q.den)

def jsonOfSentiment (r : SentimentResult) : String :=
  "\x7b\"sentiment\":" ++ jsonStr r.sentiment ++
  ",\"confidence\":" ++ jsonNum r.confidence ++
  ",\"explanation\":" ++ jsonStr r.explanation ++ "\x7d"

def jsonOfEntity (e : Entity) : String :=
  "\x7b\"text\":" ++ jsonStr e.text ++ ",\"type\":" ++ jsonStr e.type ++
  ",\"confidence\":" ++ jsonNum e.confidence ++ "\x7d"

def jsonOfSearchResult (r : SearchResult) : String :=
  "\x7b\"title\":" ++ jsonStr r.title ++ ",\"url\":" ++ jsonStr r.url ++
  ",\"snippet\":" ++ jsonStr r.snippet ++ ",\"score\":" ++ jsonNum r.score ++ "\x7d"

def jsonOfWeather (w : WeatherData) : String :=
  "\x7b\"location\":" ++ jsonStr w.location ++
  ",\"temperature\":" ++ jsonNum w.temperature ++
  ",\"unit\":" ++ jsonStr (match w.unit with | .celsius => "celsius" | .fahrenheit => "fahrenheit") ++
  ",\"condition\":" ++ jsonStr w.condition ++
  ",\"humidity\":" ++ jsonNum w.humidity ++
  ",\"wind_speed\":" ++ jsonNum w.wind_speed ++
  ",\"forecast\":" ++ jsonStr w.forecast ++ "\x7d"

def jsonOfConfig (c : AnalysisConfig) : String :=
  "\x7b\"depth\":" ++ jvalText c.depth ++
  ",\"includeSentiment\":" ++ toString c.includeSentiment ++
  ",\"includeEntities\":" ++ toString c.includeEntities ++
  ",\"maxSummaryWords\":" ++ jnumText c.maxSummaryWords ++ "\x7d"

/-- `JSON.stringify` of a `ConfigureAnalysisResult`; an absent `config`
field is omitted, as `JSON.stringify` omits `undefined` properties. -/
def jsonOfConfigureResult (r : ConfigureAnalysisResult) : String :=
  "\x7b\"action\":" ++ jsonStr r.action ++
  (match r.config with
   | some c => ",\"config\":" ++ jsonOfConfig c
   | none => "") ++
  ",\"message\":" ++ jsonStr r.message ++ "\x7d"

/-! ## src/server.ts — the CallToolRequest dispatcher -/

/-- The injected dependencies and connected client visible to one
dispatched call: the three providers (whose promises may reject), the
regular-expression oracle, and the client-side outcomes of the two
outward bidirectional calls. -/
structure Env where
  complete : String → CompletionOptions → Except String (Result String String)
  search : String → ℕ → Except String (Result (List SearchResult) String)
  getWeather : String → Except String (Result WeatherData String)
  regexMatches : String → String → List String
  sampling : SamplingRequest → SamplingOutcome
  elicit : ElicitRequest → ElicitOutcome

/-- A `{ type: "text", text }` content item of a CallTool response. -/
structure TextContent where
  text : String
deriving DecidableEq, Repr

/-- The wire response of the CallTool handler.  `structured` models the
`structuredContent` field returned alongside `content` by the tools that
declare an `outputSchema`. -/
structure CallToolResponse where
  content : List TextContent
  structured : Option String := none
  isError : Bool := false
deriving DecidableEq, Repr

/-- An exception escaping the CallTool request handler (the dispatcher
wraps no part of the `switch` in `try`/`catch`): either the `ZodError`
thrown by `Schema.parse`, or a rejected handler promise. -/
inductive DispatchFault where
  | zodError (message : String)
  | handlerException (message : String)
deriving DecidableEq, Repr

/-- The operation names of the dispatcher's `switch`. -/
def toolNames : List String :=
  ["summarize", "analyze_sentiment", "extract_entities", "brave_web_search",
   "get_weather", "smart_summarize", "configure_analysis"]

/-- The `Error: …`-flagged response built from a handler `Result` failure. -/
def errorResponse (e : String) : CallToolResponse :=
  { content := [{ text := "Error: " ++ e }], isError := true }

/-- The CallToolRequest handler registered by `registerTools` in
src/server.ts, for one inbound call: switch on the tool name, validate
with the tool's schema (`parse` throws `.zodError` on failure), run the
handler (an uncaught rejected promise surfaces as `.handlerException`),
and wrap the handler's `Result` into the response shape. -/
def dispatch (env : Env) (name : String) (args : Args) :
    Except DispatchFault CallToolResponse :=
  if name = "summarize" then
    match SummarizeSchema.parse args with
    | .error m => .error (.zodError m)
    | .ok input =>
      match summarize input env.complete with
      | .error e => .error (.handlerException e)
      | .ok (.Err e) => .ok (errorResponse e)
      | .ok (.Ok v) =>
        .ok { content := [{ text := v }],
              structured := some ("\x7b\"summary\":" ++ jsonStr v ++ "\x7d") }
  else if name = "analyze_sentiment" then
    match SentimentSchema.parse args with
    | .error m => .error (.zodError m)
    | .ok input =>
      match analyzeSentiment input with
      | .Err e => .ok (errorResponse e)
      | .Ok v =>
        .ok { content := [{ text := jsonOfSentiment v }],
              structured := some (jsonOfSentiment v) }
  else if name = "extract_entities" then
    match EntitySchema.parse args with
    | .error m => .error (.zodError m)
    | .ok input =>
      match extractEntities input env.regexMatches with
      | .Err e => .ok (errorResponse e)
      | .Ok v =>
        .ok { content := [{ text := jsonStringifyList jsonOfEntity v }],
              structured := some ("\x7b\"entities\":" ++ jsonStringifyList jsonOfEntity v ++ "\x7d") }
  else if name = "brave_web_search" then
    match SearchSchema.parse args with
    | .error m => .error (.zodError m)
    | .ok input =>
      match webSearch input env.search with
      | .error e => .error (.handlerException e)
      | .ok (.Err e) => .ok (errorResponse e)
      | .ok (.Ok v) => .ok { content := [{ text := jsonStringifyList jsonOfSearchResult v }] }
  else if name = "get_weather" then
    match WeatherSchema.parse args with
    | .error m => .error (.zodError m)
    | .ok input =>
      match getWeather input env.getWeather with
      | .error e => .error (.handlerException e)
      | .ok (.Err e) => .ok (errorResponse e)
      | .ok (.Ok v) => .ok { content := [{ text := jsonOfWeather v }] }
  else if name = "smart_summarize" then
    match SmartSummarizeSchema.parse args with
    | .error m => .error (.zodError m)
    | .ok input =>
      match smartSummarize input env.sampling with
      | .Err e => .ok (errorResponse e)
      | .Ok v => .ok { content := [{ text := v }] }
  else if name = "configure_analysis" then
    match ConfigureAnalysisSchema.parse args with
    | .error m => .error (.zodError m)
    | .ok input =>
      match configureAnalysis input env.elicit with
      | .Err e => .ok (errorResponse e)
      | .Ok v => .ok { content := [{ text := jsonOfConfigureResult v }] }
  else
    .ok { content := [{ text := "Unknown tool: " ++ name }], isError := true }

/-- Validation of raw arguments against the schema the dispatcher uses for
`name` (the same `parse` functions `dispatch` calls); an unknown name has
no schema and never fails validation. -/
def validateArgs (name : String) (args : Args) : Except String Unit :=
  if name = "summarize" then
    match SummarizeSchema.parse args with | .error m => .error m | .ok _ => .ok ()
  else if name = "analyze_sentiment" then
    match SentimentSchema.parse args with | .error m => .error m | .ok _ => .ok ()
  else if name = "extract_entities" then
    match EntitySchema.parse args with | .error m => .error m | .ok _ => .ok ()
  else if name = "brave_web_search" then
    match SearchSchema.parse args with | .error m => .error m | .ok _ => .ok ()
  else if name = "get_weather" then
    match WeatherSchema.parse args with | .error m => .error m | .ok _ => .ok ()
  else if name = "smart_summarize" then
    match SmartSummarizeSchema.parse args with | .error m => .error m | .ok _ => .ok ()
  else if name = "configure_analysis" then
    match ConfigureAnalysisSchema.parse args with | .error m => .error m | .ok _ => .ok ()
  else .ok ()

/-- A fully mock environment, as produced by `createProviders` in mock
mode: the three mock providers (none of whose promises ever reject), an
empty regular-expression oracle, and a client lacking both the sampling
and the elicitation capability. -/
def mockEnv : Env :=
  { complete := fun p o => .ok (MockTextProvider.complete p o),
    search := fun q n => .ok (MockWebSearchProvider.search q n),
    getWeather := fun l => .ok (MockWeatherProvider.getWeather l),
    regexMatches := fun _ _ => [],
    sampling := fun _ => .throws "Method not found",
    elicit := fun _ => .throws "Method not found" }

/-! ## Concrete environments and clients used in example instantiations -/

/-- An environment whose text provider's promise rejects. -/
def throwingTextEnv : Env := { mockEnv with complete := fun _ _ => .error "boom" }

/-- An environment whose text provider reports a `Result` failure. -/
def failingTextEnv : Env :=
  { mockEnv with complete := fun _ _ => .ok (.Err "provider down") }

/-- A client without the elicitation capability. -/
def noElicitClient : ElicitRequest → ElicitOutcome := fun _ => .throws "Method not found"

/-- A client declining every elicitation. -/
def decliningClient : ElicitRequest → ElicitOutcome := fun _ => .returns "decline" none

/-- A client cancelling every elicitation. -/
def cancellingClient : ElicitRequest → ElicitOutcome := fun _ => .returns "cancel" none

/-- A client accepting every elicitation but sending no payload. -/
def acceptNullClient : ElicitRequest → ElicitOutcome := fun _ => .returns "accept" none

/-- A client accepting every elicitation with an explicit `null` payload. -/
def acceptExplicitNullClient : ElicitRequest → ElicitOutcome :=
  fun _ => .returns "accept" (some .null)

/-- A client answering every sampling request with a text response. -/
def textSamplingClient : SamplingRequest → SamplingOutcome :=
  fun _ => .returns { type := "text", text := "A concise summary." }

/-- A client answering every sampling request with an image response. -/
def imageSamplingClient : SamplingRequest → SamplingOutcome :=
  fun _ => .returns { type := "image", text := "(binary)" }

/-- A client without the sampling capability. -/
def noSamplingClient : SamplingRequest → SamplingOutcome :=
  fun _ => .throws "Method not found"

/-! ## Helper lemmas -/

theorem jsMinQ_eq_min (a b : ℚ) : jsMinQ a b = min a b := by
  rw [jsMinQ, min_def]

theorem jsMinN_eq_min (a b : ℕ) : jsMinN a b = min a b := by
  rw [jsMinN, Nat.min_def]

/-- `Math.min c 1.0` keeps a nonnegative value inside `[0, 1]`. -/
theorem jsMinQ_one_mem (c : ℚ) (hc : 0 ≤ c) :
    0 ≤ jsMinQ c 1.0 ∧ jsMinQ c 1.0 ≤ 1 := by
  rw [jsMinQ_eq_min]
  refine ⟨le_min hc (by norm_num), (min_le_right c (1.0 : ℚ)).trans (by norm_num)⟩

theorem listHasPre_refl (l : List Char) : listHasPre l l = true := by
  induction l with
  | nil => rfl
  | cons a as ih => simp [listHasPre, ih]

theorem listHasSub_refl (l : List Char) : listHasSub l l = true := by
  cases l with
  | nil => rfl
  | cons a as => simp [listHasSub, listHasPre_refl]

/-- A string contains its own suffix. -/
theorem listHasSub_append (xs ys : List Char) : listHasSub (xs ++ ys) ys = true := by
  induction xs with
  | nil => simpa using listHasSub_refl ys
  | cons x xs ih => simp [listHasSub, ih]

theorem strContains_append (s e : String) : strContains (s ++ e) e = true := by
  show listHasSub (s.data ++ e.data) e.data = true
  exact listHasSub_append s.data e.data

/-! ## Claim theorems -/

/-- C5: For every input text, `analyze_sentiment` succeeds and the
confidence in its result lies in the closed interval `[0, 1]`; in
particular zero sentiment-word matches yield sentiment `neutral` with
confidence `0.6`. -/
theorem claim_C5_sentiment_confidence (text : String) :
    ∃ r : SentimentResult,
      analyzeSentiment { text := text } = .Ok r ∧
      0 ≤ r.confidence ∧ r.confidence ≤ 1 ∧
      (posCount text + negCount text = 0 →
        r.sentiment = "neutral" ∧ r.confidence = 0.6) := by
  refine ⟨_, rfl, ?_⟩
  dsimp only
  split_ifs with h0 h1 h2 <;> dsimp only
  · -- neutral
    have hb := jsMinQ_one_mem (0.6 : ℚ) (by norm_num)
    refine ⟨hb.1, hb.2, fun _ => ⟨rfl, ?_⟩⟩
    rw [jsMinQ_eq_min]
    exact min_eq_left (by norm_num)
  · -- mixed
    have hnn : (0 : ℚ) ≤
        |(posCount text : ℚ) - (negCount text : ℚ)| /
          (((posCount text + negCount text : ℕ) : ℚ) * 2) :=
      div_nonneg (abs_nonneg _) (by positivity)
    have hb := jsMinQ_one_mem
      (0.5 + |(posCount text : ℚ) - (negCount text : ℚ)| /
        (((posCount text + negCount text : ℕ) : ℚ) * 2)) (by linarith)
    exact ⟨hb.1, hb.2, fun hx => absurd hx h0⟩
  · -- positive
    have hmin : (0 : ℚ) ≤ jsMinQ 0.35 ((posCount text : ℚ) * 0.1) := by
      rw [jsMinQ_eq_min]
      exact le_min (by norm_num) (by positivity)
    have hb := jsMinQ_one_mem
      (0.6 + jsMinQ 0.35 ((posCount text : ℚ) * 0.1)) (by linarith)
    exact ⟨hb.1, hb.2, fun hx => absurd hx h0⟩
  · -- negative
    have hmin : (0 : ℚ) ≤ jsMinQ 0.35 ((negCount text : ℚ) * 0.1) := by
      rw [jsMinQ_eq_min]
      exact le_min (by norm_num) (by positivity)
    have hb := jsMinQ_one_mem
      (0.6 + jsMinQ 0.35 ((negCount text : ℚ) * 0.1)) (by linarith)
    exact ⟨hb.1, hb.2, fun hx => absurd hx h0⟩

/-- Witness for C5 at the concrete text `"the quiet sky"`, which has zero
sentiment-word matches. -/
theorem claim_C5_witness :
    ∃ r : SentimentResult,
      analyzeSentiment { text := "the quiet sky" } = .Ok r ∧
      r.sentiment = "neutral" ∧ r.confidence = 0.6 := by
  obtain ⟨r, hr, _, _, himp⟩ := claim_C5_sentiment_confidence "the quiet sky"
  have h := himp (by decide)
  exact ⟨r, hr, h.1, h.2⟩

/-- C6: For every query and every `maxResults = N` within the schema bound
`1 ≤ N ≤ 20`, the mock web search returns a success with exactly
`min N 5` results (five placeholder domains are available), the score of
result `i` equals `1.0 - i * 0.15`, and scores are strictly decreasing by
index. -/
theorem claim_C6_mock_search_results (query : String) (N : ℕ)
    (h1 : 1 ≤ N) (h20 : N ≤ 20) :
    ∃ rs : List SearchResult,
      MockWebSearchProvider.search query N = .Ok rs ∧
      rs.length = min N 5 ∧
      (∀ i (hi : i < rs.length), (rs.get ⟨i, hi⟩).score = 1 - (i : ℚ) * 0.15) ∧
      (∀ i j (hi : i < rs.length) (hj : j < rs.length), i < j →
        (rs.get ⟨j, hj⟩).score < (rs.get ⟨i, hi⟩).score) := by
  refine ⟨_, rfl, ?_, ?_, ?_⟩
  · simp [jsMinN_eq_min, mockDomains]
  · intro i hi
    simp at hi
    simp [List.get_map, List.get_range]
  · intro i j hi hj hij
    simp only [List.get_map, List.get_range]
    have : (i : ℚ) * 0.15 < (j : ℚ) * 0.15 := by
      have : (i : ℚ) < (j : ℚ) := by exact_mod_cast hij
      nlinarith
    linarith

/-- Witness for C6 at `query = "lean theorem proving"`, `N = 7`. -/
theorem claim_C6_witness :
    ∃ rs : List SearchResult,
      MockWebSearchProvider.search "lean theorem proving" 7 = .Ok rs ∧
      rs.length = min 7 5 ∧
      (∀ i (hi : i < rs.length), (rs.get ⟨i, hi⟩).score = 1 - (i : ℚ) * 0.15) ∧
      (∀ i j (hi : i < rs.length) (hj : j < rs.length), i < j →
        (rs.get ⟨j, hj⟩).score < (rs.get ⟨i, hi⟩).score) :=
  claim_C6_mock_search_results "lean theorem proving" 7 (by decide) (by decide)

/-- C7: For every location whose lower-cased trimmed form is a key of the
mock weather table, `MockWeatherProvider.getWeather` returns a success
with that key's canned data (in particular its canned temperature); for
every location not in the table it returns a success — not a failure —
whose `location` field echoes the input verbatim. -/
theorem claim_C7_mock_weather (location : String) (d : WeatherData) :
    (mockWeatherData.lookup (jsTrim (jsToLowerCase location)) = some d →
      MockWeatherProvider.getWeather location = .Ok d) ∧
    (mockWeatherData.lookup (jsTrim (jsToLowerCase location)) = none →
      MockWeatherProvider.getWeather location =
        .Ok { location := location, temperature := 70, unit := .fahrenheit,
              condition := "Clear", humidity := 50, wind_speed := 10,
              forecast := "Typical conditions for " ++ location }) := by
  constructor
  · intro h
    unfold MockWeatherProvider.getWeather
    simp only [h]
  · intro h
    unfold MockWeatherProvider.getWeather
    simp only [h]

/-- Witness for C7: `"  San Francisco  "` (odd casing and padding) hits the
canned entry with temperature 62; `"Gotham"` is echoed back verbatim. -/
theorem claim_C7_witness :
    MockWeatherProvider.getWeather "  San Francisco  " =
      .Ok { location := "San Francisco, CA", temperature := 62, unit := .fahrenheit,
            condition := "Partly Cloudy", humidity := 72, wind_speed := 12,
            forecast := "Mild with coastal fog clearing by afternoon" } ∧
    MockWeatherProvider.getWeather "Gotham" =
      .Ok { location := "Gotham", temperature := 70, unit := .fahrenheit,
            condition := "Clear", humidity := 50, wind_speed := 10,
            forecast := "Typical conditions for Gotham" } :=
  ⟨(claim_C7_mock_weather "  San Francisco  " _).1 rfl,
   (claim_C7_mock_weather "Gotham"
      { location := "", temperature := 0, unit := .fahrenheit, condition := "",
        humidity := 0, wind_speed := 0, forecast := "" }).2 rfl⟩

/-- C9: The `get_weather` handler's result is independent of the validated
`unit` argument — for every location and every provider it is the
identical call — and the mock's `"london"` entry reports `celsius`
regardless of the requested unit. -/
theorem claim_C9_weather_unit_independent
    (provider : String → Except String (Result WeatherData String))
    (location : String) (u₁ u₂ : TempUnit) :
    getWeather { location := location, unit := u₁ } provider =
      getWeather { location := location, unit := u₂ } provider ∧
    ∀ u : TempUnit,
      ∃ d : WeatherData,
        getWeather { location := "London", unit := u }
            (fun l => .ok (MockWeatherProvider.getWeather l)) = .ok (.Ok d) ∧
        d.unit = .celsius := by
  refine ⟨rfl, fun u => ?_⟩
  exact ⟨{ location := "London, UK", temperature := 8, unit := .celsius,
           condition := "Overcast", humidity := 85, wind_speed := 15,
           forecast := "Grey skies with chance of light rain" }, rfl, rfl⟩

/-- C3: `configure_analysis` always returns a success at the handler
level.  When the outward elicitation call raises, it succeeds with action
`accept`, the default configuration (depth = standard, both booleans true,
maxSummaryWords = 100) and a message containing the word "default"; a
`decline` disposition yields a success with action `decline` and no
configuration; a `cancel` disposition yields a success with action
`cancel` and no configuration. -/
theorem claim_C3_configure_analysis_dispositions
    (input : ConfigureAnalysisInput) (client : ElicitRequest → ElicitOutcome) :
    (∃ r, configureAnalysis input client = .Ok r) ∧
    (∀ e, client (configureAnalysisRequest input) = .throws e →
      configureAnalysis input client =
        .Ok { action := "accept",
              config := some { depth := .str "standard", includeSentiment := true,
                               includeEntities := true, maxSummaryWords := some 100 },
              message := "Using default configuration (elicitation not supported by client)." } ∧
      strContains
        "Using default configuration (elicitation not supported by client)."
        "default" = true) ∧
    (∀ c, client (configureAnalysisRequest input) = .returns "decline" c →
      configureAnalysis input client =
        .Ok { action := "decline", config := none,
              message := "User declined to configure analysis. Using default settings would be required to proceed." }) ∧
    (∀ c, client (configureAnalysisRequest input) = .returns "cancel" c →
      configureAnalysis input client =
        .Ok { action := "cancel", config := none,
              message := "User cancelled the analysis configuration dialog." }) := by
  refine ⟨?_, ?_, ?_, ?_⟩
  · rcases h : client (configureAnalysisRequest input) with e | ⟨a, c⟩
    · unfold configureAnalysis
      rw [h]
      exact ⟨_, rfl⟩
    · unfold configureAnalysis
      rw [h]
      dsimp only
      split_ifs <;> exact ⟨_, rfl⟩
  · intro e h
    unfold configureAnalysis
    rw [h]
    exact ⟨rfl, rfl⟩
  · intro c h
    unfold configureAnalysis
    rw [h]
    simp
  · intro c h
    unfold configureAnalysis
    rw [h]
    simp

/-- Witness for C3: a capability-less client, a declining client and a
cancelling client, each at the concrete input `"hello"`. -/
theorem claim_C3_witness :
    configureAnalysis { text := "hello" } noElicitClient =
      .Ok { action := "accept",
            config := some { depth := .str "standard", includeSentiment := true,
                             includeEntities := true, maxSummaryWords := some 100 },
            message := "Using default configuration (elicitation not supported by client)." } ∧
    configureAnalysis { text := "hello" } decliningClient =
      .Ok { action := "decline", config := none,
            message := "User declined to configure analysis. Using default settings would be required to proceed." } ∧
    configureAnalysis { text := "hello" } cancellingClient =
      .Ok { action := "cancel", config := none,
            message := "User cancelled the analysis configuration dialog." } :=
  ⟨((claim_C3_configure_analysis_dispositions { text := "hello" } noElicitClient).2.1
      "Method not found" rfl).1,
   (claim_C3_configure_analysis_dispositions { text := "hello" } decliningClient).2.2.1
      none rfl,
   (claim_C3_configure_analysis_dispositions { text := "hello" } cancellingClient).2.2.2
      none rfl⟩

/-- C4: `smart_summarize` returns the client's text verbatim on a text
payload; a failure flagging the unexpected content type on a non-text
payload; and, when the outward call raises, a failure whose message names
the underlying fault (the fault string occurs in the message). -/
theorem claim_C4_smart_summarize_outcomes (input : SmartSummarizeInput)
    (client : SamplingRequest → SamplingOutcome) :
    (∀ c, client (smartSummarizeRequest input) = .returns c → c.type = "text" →
      smartSummarize input client = .Ok c.text) ∧
    (∀ c, client (smartSummarizeRequest input) = .returns c → c.type ≠ "text" →
      smartSummarize input client = .Err "Client returned non-text sampling response") ∧
    (∀ e, client (smartSummarizeRequest input) = .throws e →
      smartSummarize input client = .Err ("Sampling request failed: " ++ e) ∧
      strContains ("Sampling request failed: " ++ e) e = true) := by
  refine ⟨?_, ?_, ?_⟩
  · intro c h hc
    unfold smartSummarize
    rw [h]
    dsimp only
    rw [if_pos hc]
  · intro c h hc
    unfold smartSummarize
    rw [h]
    dsimp only
    rw [if_neg hc]
  · intro e h
    refine ⟨?_, strContains_append "Sampling request failed: " e⟩
    unfold smartSummarize
    rw [h]

/-- Witness for C4: a text-answering client, an image-answering client and
a capability-less client, each at the concrete input `"hello"` with
`maxLength = 150`. -/
theorem claim_C4_witness :
    smartSummarize { text := "hello", maxLength := 150 } textSamplingClient =
      .Ok "A concise summary." ∧
    smartSummarize { text := "hello", maxLength := 150 } imageSamplingClient =
      .Err "Client returned non-text sampling response" ∧
    smartSummarize { text := "hello", maxLength := 150 } noSamplingClient =
      .Err "Sampling request failed: Method not found" :=
  ⟨(claim_C4_smart_summarize_outcomes _ textSamplingClient).1
      { type := "text", text := "A concise summary." } rfl rfl,
   (claim_C4_smart_summarize_outcomes _ imageSamplingClient).2.1
      { type := "image", text := "(binary)" } rfl (by decide),
   ((claim_C4_smart_summarize_outcomes _ noSamplingClient).2.2
      "Method not found" rfl).1⟩

/-- C10: an `accept` disposition with a null or absent payload does not
take the accept branch (which requires a non-null payload) and does not
match decline; control falls through to the final cancel return, so the
handler succeeds with action `cancel` — not an accept with defaults. -/
theorem claim_C10_accept_null_payload (input : ConfigureAnalysisInput)
    (client : ElicitRequest → ElicitOutcome) :
    (client (configureAnalysisRequest input) = .returns "accept" none →
      configureAnalysis input client =
        .Ok { action := "cancel", config := none,
              message := "User cancelled the analysis configuration dialog." }) ∧
    (client (configureAnalysisRequest input) = .returns "accept" (some .null) →
      configureAnalysis input client =
        .Ok { action := "cancel", config := none,
              message := "User cancelled the analysis configuration dialog." }) := by
  constructor <;> intro h <;> unfold configureAnalysis <;> rw [h] <;>
    simp [contentNonNull]

/-- Witness for C10: clients answering `accept` with an absent and with an
explicit `null` payload, at the concrete input `"hello"`. -/
theorem claim_C10_witness :
    configureAnalysis { text := "hello" } acceptNullClient =
      .Ok { action := "cancel", config := none,
            message := "User cancelled the analysis configuration dialog." } ∧
    configureAnalysis { text := "hello" } acceptExplicitNullClient =
      .Ok { action := "cancel", config := none,
            message := "User cancelled the analysis configuration dialog." } :=
  ⟨(claim_C10_accept_null_payload { text := "hello" } acceptNullClient).1 rfl,
   (claim_C10_accept_null_payload { text := "hello" } acceptExplicitNullClient).2 rfl⟩

/-- C1: whenever the raw arguments violate the named operation's declared
schema, the dispatcher raises the validation error before any handler
runs: the outcome is the thrown `ZodError` — a fault distinct by
construction from a handler-level error (`errorResponse` / a handler
exception) — and is identical under any two environments, so no injected
provider, regular-expression oracle or client is ever consulted. -/
theorem claim_C1_validation_rejects_before_handler
    (env₁ env₂ : Env) (name : String) (args : Args) (msg : String)
    (h : validateArgs name args = .error msg) :
    dispatch env₁ name args = .error (.zodError msg) ∧
    dispatch env₁ name args = dispatch env₂ name args := by
  unfold validateArgs at h
  unfold dispatch
  split_ifs at h ⊢
  case pos =>
    cases hp : SummarizeSchema.parse args with
    | error m => rw [hp] at h; injection h with hm; subst hm; exact ⟨rfl, rfl⟩
    | ok v => rw [hp] at h; simp at h
  case pos =>
    cases hp : SentimentSchema.parse args with
    | error m => rw [hp] at h; injection h with hm; subst hm; exact ⟨rfl, rfl⟩
    | ok v => rw [hp] at h; simp at h
  case pos =>
    cases hp : EntitySchema.parse args with
    | error m => rw [hp] at h; injection h with hm; subst hm; exact ⟨rfl, rfl⟩
    | ok v => rw [hp] at h; simp at h
  case pos =>
    cases hp : SearchSchema.parse args with
    | error m => rw [hp] at h; injection h with hm; subst hm; exact ⟨rfl, rfl⟩
    | ok v => rw [hp] at h; simp at h
  case pos =>
    cases hp : WeatherSchema.parse args with
    | error m => rw [hp] at h; injection h with hm; subst hm; exact ⟨rfl, rfl⟩
    | ok v => rw [hp] at h; simp at h
  case pos =>
    cases hp : SmartSummarizeSchema.parse args with
    | error m => rw [hp] at h; injection h with hm; subst hm; exact ⟨rfl, rfl⟩
    | ok v => rw [hp] at h; simp at h
  case pos =>
    cases hp : ConfigureAnalysisSchema.parse args with
    | error m => rw [hp] at h; injection h with hm; subst hm; exact ⟨rfl, rfl⟩
    | ok v => rw [hp] at h; simp at h
  all_goals simp at h

/-- Witness for C1: a `summarize` call whose `text` argument has the wrong
type is rejected identically under the mock and a throwing environment. -/
theorem claim_C1_witness :
    dispatch mockEnv "summarize" [("text", JsonValue.num 5)] =
      .error (.zodError "Expected string: text") ∧
    dispatch mockEnv "summarize" [("text", JsonValue.num 5)] =
      dispatch throwingTextEnv "summarize" [("text", JsonValue.num 5)] :=
  claim_C1_validation_rejects_before_handler mockEnv throwingTextEnv
    "summarize" [("text", JsonValue.num 5)] "Expected string: text" rfl

/-- C8: dispatching an operation name absent from the catalog never
throws: the result is an `.ok` response flagged as an error whose text
names the unknown operation. -/
theorem claim_C8_unknown_tool (env : Env) (name : String) (args : Args)
    (h : name ∉ toolNames) :
    dispatch env name args =
      .ok { content := [{ text := "Unknown tool: " ++ name }],
            structured := none, isError := true } := by
  simp only [toolNames, List.mem_cons, List.not_mem_nil, or_false, not_or] at h
  obtain ⟨h1, h2, h3, h4, h5, h6, h7⟩ := h
  unfold dispatch
  rw [if_neg h1, if_neg h2, if_neg h3, if_neg h4, if_neg h5, if_neg h6, if_neg h7]

/-- Witness for C8 at the unknown name `"nonexistent_tool"`. -/
theorem claim_C8_witness :
    dispatch mockEnv "nonexistent_tool" [] =
      .ok { content := [{ text := "Unknown tool: nonexistent_tool" }],
            structured := none, isError := true } :=
  claim_C8_unknown_tool mockEnv "nonexistent_tool" [] (by decide)

/-- Counterexample to C2 as stated: under an environment whose text
provider's promise rejects with `"boom"`, a valid `summarize` call makes
the dispatcher propagate the exception — the outcome is a thrown handler
fault, not an `.ok` response flagged as an error, because the `switch`
wraps no handler in `try`/`catch`. -/
theorem claim_C2_counterexample :
    dispatch throwingTextEnv "summarize" [("text", JsonValue.str "hello")] =
      .error (.handlerException "boom") := rfl

/-- C2 (amended): the dispatcher converts handler-level `Result` failures
into error-flagged responses, but it catches no handler exception: for the
three provider-backed tools, a rejected provider promise propagates out of
the dispatch handler as a handler fault (left for the enclosing SDK layer
to absorb). -/
theorem claim_C2_result_failures_flagged_exceptions_propagate
    (env : Env) (args : Args) :
    (∀ input e, SummarizeSchema.parse args = .ok input →
      env.complete (summarizePrompt input)
          { maxTokens := some (input.maxLength * 2) } = .ok (.Err e) →
      dispatch env "summarize" args = .ok (errorResponse e)) ∧
    (∀ input e, SummarizeSchema.parse args = .ok input →
      env.complete (summarizePrompt input)
          { maxTokens := some (input.maxLength * 2) } = .error e →
      dispatch env "summarize" args = .error (.handlerException e)) ∧
    (∀ input e, SearchSchema.parse args = .ok input →
      env.search input.query input.maxResults = .ok (.Err e) →
      dispatch env "brave_web_search" args = .ok (errorResponse e)) ∧
    (∀ input e, SearchSchema.parse args = .ok input →
      env.search input.query input.maxResults = .error e →
      dispatch env "brave_web_search" args = .error (.handlerException e)) ∧
    (∀ input e, WeatherSchema.parse args = .ok input →
      env.getWeather input.location = .ok (.Err e) →
      dispatch env "get_weather" args = .ok (errorResponse e)) ∧
    (∀ input e, WeatherSchema.parse args = .ok input →
      env.getWeather input.location = .error e →
      dispatch env "get_weather" args = .error (.handlerException e)) := by
  refine ⟨?_, ?_, ?_, ?_, ?_, ?_⟩ <;> intro input e hp hc <;>
    simp only [dispatch, summarize, webSearch, getWeather,
      String.reduceEq, reduceIte] <;>
    rw [hp] <;> dsimp only <;> rw [hc]

/-- Witness for the amended C2: a provider reporting a `Result` failure
yields the flagged error response, while a rejecting provider's exception
escapes as a handler fault. -/
theorem claim_C2_witness :
    dispatch failingTextEnv "summarize" [("text", JsonValue.str "hi")] =
      .ok (errorResponse "provider down") ∧
    dispatch throwingTextEnv "summarize" [("text", JsonValue.str "hi")] =
      .error (.handlerException "boom") :=
  ⟨(claim_C2_result_failures_flagged_exceptions_propagate failingTextEnv
      [("text", JsonValue.str "hi")]).1 { text := "hi", maxLength := 100 }
      "provider down" rfl rfl,
   (claim_C2_result_failures_flagged_exceptions_propagate throwingTextEnv
      [("text", JsonValue.str "hi")]).2.1 { text := "hi", maxLength := 100 }
      "boom" rfl rfl⟩
